import Mathlib

/-!
Shallow embedding of `src/hugo-spa.js` (class `LightSPA`), a client-side
navigation controller for Hugo sites.

Browser-visible state (location, document title, the live content region,
the browser history stack, the controller's counter, the dispatched
`spaContentUpdated` events and the number of fetches issued) is modelled
explicitly as a `World` record.  The network (`fetch` followed by
`DOMParser` parsing and `querySelector` against the configured
main-content selector) is modelled as an abstract function from URL
strings to fetch outcomes.  Each method of the class becomes a function
from `World` to `World`; the `try`/`catch` of `navigateTo` becomes the
non-propagating error branches of a total function.
-/

namespace LightSPA

/-- Scroll coordinates, as in the `{ x: ..., y: ... }` objects the source
stores in history records (read from `window.scrollX` / `window.scrollY`,
written by `window.scrollTo`). -/
structure Scroll where
  x : Nat
  y : Nat
  deriving DecidableEq

/-- The record attached to a browser history slot by this system: the
object literals built at `init` (lines 70-77) and in `navigateTo`
(lines 149-155).  `scrollPosition` is an `Option` because
`handlePopState` guards on its presence (line 196); every record this
system creates carries one.  The pushed records of `navigateTo` carry no
`isInitialState` field, which JS reads as the falsy `undefined`; this is
modelled as `isInitialState := false`. -/
structure HistoryEntry where
  url : String
  title : String
  content : String
  scrollPosition : Option Scroll
  isInitialState : Bool
  index : Nat
  deriving DecidableEq

/-- One browser history slot: the slot's URL together with the record
attached by `history.replaceState` / `history.pushState` (`none` when the
browser surfaces a position with no associated record, i.e. a null
`event.state`). -/
structure Slot where
  url : String
  state : Option HistoryEntry
  deriving DecidableEq

/-- The `detail` payload of a `spaContentUpdated` event (lines 167-169). -/
structure SpaEvent where
  url : String
  pushState : Bool
  deriving DecidableEq

/-- The result of parsing a fetched HTML document: its `<title>` and the
result of `doc.querySelector(config.mainContentSelector)` — `some inner`
is the matched element's `innerHTML`, `none` means no element matched. -/
structure ParsedDoc where
  title : String
  queryMain : Option String
  deriving DecidableEq

/-- Outcome of `fetch(url)` plus response decoding:
`netErr` models a rejected fetch (transport failure), `httpErr s` a
response with `!response.ok` (line 132), and `success doc` a 2xx response
whose body parsed into `doc`. -/
inductive FetchOutcome where
  | netErr : FetchOutcome
  | httpErr : Nat → FetchOutcome
  | success : ParsedDoc → FetchOutcome
  deriving DecidableEq

/-- The abstract network: what fetching each URL yields. -/
abbrev Network := String → FetchOutcome

/-- A resolved anchor element, with the properties the source reads
(`host`, `href`) and mutates (`target`, `rel`). -/
structure Anchor where
  host : String
  href : String
  target : String
  rel : String
  deriving DecidableEq

/-- The browser-plus-controller state.

* `locationHref` / `locationHost` — `window.location.href` / `.host`
  (`pushState` is same-origin, so the host never changes);
* `docTitle` — `document.title`;
* `mainContentRef` — the identity of the DOM element `this.mainContent`
  points at (assigned once, at line 55; content updates mutate only the
  element's `innerHTML`, never this reference);
* `mainContentHtml` — `this.mainContent.innerHTML`;
* `opacity` — `this.mainContent.style.opacity` (the pending indicator);
* `scrollX` / `scrollY` — the viewport scroll offsets;
* `histEntries` / `histPos` — the browser history stack and the active
  position in it;
* `currentIndex` — the controller field `this.currentIndex`;
* `events` — the log of `spaContentUpdated` events dispatched so far;
* `fetchCount` — how many times `fetch` has been invoked. -/
structure World where
  locationHref : String
  locationHost : String
  docTitle : String
  mainContentRef : Nat
  mainContentHtml : String
  opacity : String
  scrollX : Nat
  scrollY : Nat
  histEntries : List Slot
  histPos : Nat
  currentIndex : Nat
  events : List SpaEvent
  fetchCount : Nat
  deriving DecidableEq

/-- The element `document.querySelector(config.mainContentSelector)`
finds at start-up: its identity and its current `innerHTML`. -/
structure MainElem where
  ref : Nat
  innerHTML : String
  deriving DecidableEq

/-- The document environment `init` runs against. `mainQuery` is the
result of the main-content query (`none` when no element matches). -/
structure Env where
  mainQuery : Option MainElem
  docTitle : String
  locationHref : String
  locationHost : String
  opacity : String
  scrollX : Nat
  scrollY : Nat
  histEntries : List Slot
  histPos : Nat
  deriving DecidableEq

/-- What `init` (lines 53-80) produces: `spa = none` models the early
return at lines 59-61 — no `popstate` or `click` listener is registered
and no `history.replaceState` is performed, so the instance is inert.
`histEntries` is the browser history after `init` ran, so that the
(non-)write of the start-up record is observable in both cases. -/
structure InitResult where
  spa : Option World
  histEntries : List Slot
  deriving DecidableEq

/-- `init` (lines 53-80): look up the content element; if absent, return
inert.  Otherwise register the listeners and `replaceState` the active
history slot with the start-up record (url, title, current content,
current scroll, `isInitialState: true`, `index: 0`), and set
`this.currentIndex = 0`.  The `navigationElements` lookup (line 56) and
the `search-results` lookup (line 57) touch nothing this model tracks. -/
def init (env : Env) : InitResult :=
  match env.mainQuery with
  | none => { spa := none, histEntries := env.histEntries }
  | some mc =>
    let initialState : HistoryEntry :=
      { url := env.locationHref
        title := env.docTitle
        content := mc.innerHTML
        scrollPosition := some { x := env.scrollX, y := env.scrollY }
        isInitialState := true
        index := 0 }
    let entries1 :=
      env.histEntries.set env.histPos
        { url := env.locationHref, state := some initialState }
    { spa := some
        { locationHref := env.locationHref
          locationHost := env.locationHost
          docTitle := env.docTitle
          mainContentRef := mc.ref
          mainContentHtml := mc.innerHTML
          opacity := env.opacity
          scrollX := env.scrollX
          scrollY := env.scrollY
          histEntries := entries1
          histPos := env.histPos
          currentIndex := 0
          events := []
          fetchCount := 0 }
      histEntries := entries1 }

/-- `isInternalLink` (lines 112-114): `link.host === window.location.host`. -/
def isInternalLink (w : World) (link : Anchor) : Bool :=
  link.host == w.locationHost

/-- `navigateTo` (lines 120-174).  The guard, the pending indicator, the
fetch/parse/query pipeline, the content and title swap, the conditional
`pushState` (with `index: ++this.currentIndex`, zeroed scroll and
`window.scrollTo(0, 0)`), the indicator reset, and the event dispatch,
in source order.  The `catch` branches reset only the indicator.  The
re-registration helper called at line 164 only tags the external
search-results element with a dataset flag and is outside the modelled
state.  `history.pushState` truncates every slot after the active one
and appends the new record, which becomes active. -/
def navigateTo (net : Network) (url : String) (pushState : Bool) (w : World) : World :=
  if url == w.locationHref && !pushState then w
  else
    let w1 : World := { w with opacity := "0.5", fetchCount := w.fetchCount + 1 }
    match net url with
    | .netErr => { w1 with opacity := "1" }
    | .httpErr _ => { w1 with opacity := "1" }
    | .success doc =>
      match doc.queryMain with
      | none => { w1 with opacity := "1" }
      | some newInner =>
        let w2 : World := { w1 with mainContentHtml := newInner, docTitle := doc.title }
        let w3 : World :=
          if pushState then
            let entry : HistoryEntry :=
              { url := url
                title := w2.docTitle
                content := w2.mainContentHtml
                scrollPosition := some { x := 0, y := 0 }
                isInitialState := false
                index := w2.currentIndex + 1 }
            let kept := w2.histEntries.take (w2.histPos + 1)
            { w2 with
                currentIndex := w2.currentIndex + 1
                histEntries := kept ++ [{ url := url, state := some entry }]
                histPos := kept.length
                locationHref := url
                scrollX := 0
                scrollY := 0 }
          else w2
        let w4 : World := { w3 with opacity := "1" }
        { w4 with events := w4.events ++ [{ url := url, pushState := pushState }] }

/-- `handlePopState` (lines 179-204), as a function of the record the
browser attached to the newly active slot (`event.state`; `none` for a
null state).  The branch order matches the source: null-state fallback,
then `this.currentIndex = event.state.index`, then the truthiness check
on `event.state.content` (false for the empty string), then the direct
restore with the guarded scroll restore, else the fetch fallback. -/
def handlePopState (net : Network) (st : Option HistoryEntry) (w : World) : World :=
  match st with
  | none => navigateTo net w.locationHref false w
  | some s =>
    let w1 : World := { w with currentIndex := s.index }
    if s.content != "" then
      let w2 : World :=
        { w1 with mainContentHtml := s.content, docTitle := s.title, opacity := "1" }
      match s.scrollPosition with
      | some sp => { w2 with scrollX := sp.x, scrollY := sp.y }
      | none => w2
    else
      navigateTo net s.url false w1

/-- The observable result of a `handleClick` run (lines 93-105): the new
world, the (possibly mutated) anchor, and whether `e.preventDefault()`
was called. -/
structure ClickResult where
  world : World
  link : Option Anchor
  defaultPrevented : Bool
  deriving DecidableEq

/-- `handleClick` (lines 93-105): no enclosing anchor means no-op;
an internal link is intercepted (`preventDefault` plus
`navigateTo(link.href)`, which defaults `pushState` to `true`); an
external link keeps default navigation and is mutated to
`target="_blank"`, `rel="noopener noreferrer"`. -/
def handleClick (net : Network) (w : World) (link : Option Anchor) : ClickResult :=
  match link with
  | none => { world := w, link := none, defaultPrevented := false }
  | some a =>
    if isInternalLink w a then
      { world := navigateTo net a.href true w
        link := some a
        defaultPrevented := true }
    else
      { world := w
        link := some { a with target := "_blank", rel := "noopener noreferrer" }
        defaultPrevented := false }

/-- Browser back traversal: move the active position one slot back,
update `location.href` to that slot's URL, and fire the registered
`popstate` handler with the slot's attached record.  (The browser fires
nothing when there is no earlier slot.) -/
def backTraverse (net : Network) (w : World) : World :=
  if w.histPos == 0 then w
  else
    match w.histEntries[w.histPos - 1]? with
    | none => w
    | some slot =>
      handlePopState net slot.state
        { w with histPos := w.histPos - 1, locationHref := slot.url }

/-- A document-level click on a page whose `LightSPA` instance may be
inert (`none`): an inert instance registered no click listener, so the
event falls through untouched. -/
def sysClick (net : Network) (s : Option World) (link : Option Anchor) :
    Option World × Option Anchor × Bool :=
  match s with
  | none => (s, link, false)
  | some w =>
    let r := handleClick net w link
    (some r.world, r.link, r.defaultPrevented)

/-- A `popstate` event on a page whose `LightSPA` instance may be inert
(`none`): an inert instance registered no `popstate` listener. -/
def sysPopState (net : Network) (s : Option World) (st : Option HistoryEntry) :
    Option World :=
  match s with
  | none => s
  | some w => some (handlePopState net st w)

/-- A sequence of click-initiated forward navigations, in order. -/
def navSeq (net : Network) (urls : List String) (w : World) : World :=
  urls.foldl (fun acc u => navigateTo net u true acc) w

/-- Fetching `u` succeeds and the fetched document contains the
main-content element. -/
def fetchOk (net : Network) (u : String) : Bool :=
  match net u with
  | .success doc => doc.queryMain.isSome
  | _ => false

/-- Fetching `u` fails: rejected fetch (`NetworkError`), non-2xx response
(`HttpError`), or a document with no main-content match
(`ContentNotFoundError`). -/
def fetchFails (net : Network) (u : String) : Bool :=
  match net u with
  | .netErr => true
  | .httpErr _ => true
  | .success doc => doc.queryMain.isNone

/-- A concrete network for witnesses: two pages on host `h`, everything
else unreachable. -/
def netA : Network := fun u =>
  if u == "https://h/a" then .success { title := "TA", queryMain := some "CA" }
  else if u == "https://h/b" then .success { title := "TB", queryMain := some "CB" }
  else .netErr

/-- A concrete start-up environment: page `https://h/a` with non-empty
content `CA` in the main element. -/
def envA : Env :=
  { mainQuery := some { ref := 7, innerHTML := "CA" }
    docTitle := "TA"
    locationHref := "https://h/a"
    locationHost := "h"
    opacity := "1"
    scrollX := 0
    scrollY := 0
    histEntries := [{ url := "https://h/a", state := none }]
    histPos := 0 }

/-- The world `init envA` produces. -/
def w0A : World :=
  { locationHref := "https://h/a"
    locationHost := "h"
    docTitle := "TA"
    mainContentRef := 7
    mainContentHtml := "CA"
    opacity := "1"
    scrollX := 0
    scrollY := 0
    histEntries :=
      [{ url := "https://h/a"
         state := some
           { url := "https://h/a", title := "TA", content := "CA"
             scrollPosition := some { x := 0, y := 0 }
             isInitialState := true, index := 0 } }]
    histPos := 0
    currentIndex := 0
    events := []
    fetchCount := 0 }

/-- Like `envA` but the main element's markup is the empty string. -/
def envE : Env :=
  { mainQuery := some { ref := 7, innerHTML := "" }
    docTitle := "TA"
    locationHref := "https://h/a"
    locationHost := "h"
    opacity := "1"
    scrollX := 0
    scrollY := 0
    histEntries := [{ url := "https://h/a", state := none }]
    histPos := 0 }

/-- The world `init envE` produces: live at `https://h/a` with empty
content markup. -/
def w0E : World :=
  { locationHref := "https://h/a"
    locationHost := "h"
    docTitle := "TA"
    mainContentRef := 7
    mainContentHtml := ""
    opacity := "1"
    scrollX := 0
    scrollY := 0
    histEntries :=
      [{ url := "https://h/a"
         state := some
           { url := "https://h/a", title := "TA", content := ""
             scrollPosition := some { x := 0, y := 0 }
             isInitialState := true, index := 0 } }]
    histPos := 0
    currentIndex := 0
    events := []
    fetchCount := 0 }

/-- The start-up history record of `w0A` (page A with content `CA`). -/
def entA : HistoryEntry :=
  { url := "https://h/a", title := "TA", content := "CA"
    scrollPosition := some { x := 0, y := 0 }
    isInitialState := true, index := 0 }

/-- The world after a successful forward navigation A to B from `w0A`. -/
def wBA : World := navigateTo netA "https://h/b" true w0A

/-! ## Characterisation lemmas for the four paths through `navigateTo` -/

/-- When the duplicate-URL guard fires, `navigateTo` is the identity. -/
theorem navigateTo_of_guard (net : Network) (url : String) (pushState : Bool) (w : World)
    (h : (url == w.locationHref && !pushState) = true) :
    navigateTo net url pushState w = w := by
  unfold navigateTo
  rw [h]
  simp

/-- When the guard does not fire and the fetch pipeline fails, `navigateTo`
only resets the pending indicator (and one fetch was issued). -/
theorem navigateTo_of_fail (net : Network) (url : String) (pushState : Bool) (w : World)
    (hg : (url == w.locationHref && !pushState) = false)
    (hf : fetchFails net url = true) :
    navigateTo net url pushState w =
      { w with opacity := "1", fetchCount := w.fetchCount + 1 } := by
  unfold fetchFails at hf
  unfold navigateTo
  rw [hg]
  cases hn : net url with
  | netErr => simp
  | httpErr s => simp
  | success doc =>
    rw [hn] at hf
    cases hm : doc.queryMain with
    | none => simp [hm]
    | some m => simp [hm] at hf

/-- A successful navigation with `pushState = true`: content and title
swapped, one entry pushed with ordinal `currentIndex + 1`, viewport at
the origin, location updated, one event dispatched. -/
theorem navigateTo_push_success (net : Network) (url : String) (w : World)
    (doc : ParsedDoc) (m : String)
    (hn : net url = .success doc) (hm : doc.queryMain = some m) :
    navigateTo net url true w =
      { w with
          locationHref := url
          docTitle := doc.title
          mainContentHtml := m
          opacity := "1"
          scrollX := 0
          scrollY := 0
          histEntries := w.histEntries.take (w.histPos + 1) ++
            [{ url := url
               state := some
                 { url := url, title := doc.title, content := m
                   scrollPosition := some { x := 0, y := 0 }
                   isInitialState := false, index := w.currentIndex + 1 } }]
          histPos := (w.histEntries.take (w.histPos + 1)).length
          currentIndex := w.currentIndex + 1
          events := w.events ++ [{ url := url, pushState := true }]
          fetchCount := w.fetchCount + 1 } := by
  unfold navigateTo
  rw [hn]
  simp [hm]

/-- A successful navigation with `pushState = false` (and the guard not
firing): content and title swapped and one event dispatched, but no
history mutation, no scroll, no location change. -/
theorem navigateTo_nopush_success (net : Network) (url : String) (w : World)
    (doc : ParsedDoc) (m : String)
    (hg : (url == w.locationHref) = false)
    (hn : net url = .success doc) (hm : doc.queryMain = some m) :
    navigateTo net url false w =
      { w with
          docTitle := doc.title
          mainContentHtml := m
          opacity := "1"
          events := w.events ++ [{ url := url, pushState := false }]
          fetchCount := w.fetchCount + 1 } := by
  unfold navigateTo
  rw [hn]
  simp [hg, hm]

/-! ## Helper lemmas -/

/-- A non-failing fetch is a success whose document has a main match. -/
theorem not_fetchFails_elim (net : Network) (url : String)
    (h : fetchFails net url = false) :
    ∃ doc m, net url = .success doc ∧ doc.queryMain = some m := by
  unfold fetchFails at h
  cases hn : net url with
  | netErr => simp [hn] at h
  | httpErr s => simp [hn] at h
  | success doc =>
    cases hm : doc.queryMain with
    | none => simp [hn, hm] at h
    | some m => exact ⟨doc, m, rfl, hm⟩

/-- `fetchOk` unpacked into the success document and matched markup. -/
theorem fetchOk_elim (net : Network) (url : String)
    (h : fetchOk net url = true) :
    ∃ doc m, net url = .success doc ∧ doc.queryMain = some m := by
  unfold fetchOk at h
  cases hn : net url with
  | netErr => simp [hn] at h
  | httpErr s => simp [hn] at h
  | success doc =>
    cases hm : doc.queryMain with
    | none => simp [hn, hm] at h
    | some m => exact ⟨doc, m, rfl, hm⟩

/-- `navigateTo` never reassigns `this.mainContent`. -/
theorem navigateTo_mainContentRef (net : Network) (url : String) (pushState : Bool)
    (w : World) :
    (navigateTo net url pushState w).mainContentRef = w.mainContentRef := by
  by_cases hg : (url == w.locationHref && !pushState) = true
  · rw [navigateTo_of_guard net url pushState w hg]
  · have hg2 : (url == w.locationHref && !pushState) = false := by
      revert hg; cases url == w.locationHref && !pushState <;> simp
    by_cases hf : fetchFails net url = true
    · rw [navigateTo_of_fail net url pushState w hg2 hf]
    · have hf2 : fetchFails net url = false := by
        revert hf; cases fetchFails net url <;> simp
      obtain ⟨doc, m, hn, hm⟩ := not_fetchFails_elim net url hf2
      cases pushState with
      | true => rw [navigateTo_push_success net url w doc m hn hm]
      | false =>
        have hg3 : (url == w.locationHref) = false := by
          revert hg2; cases url == w.locationHref <;> simp
        rw [navigateTo_nopush_success net url w doc m hg3 hn hm]

/-- Without `pushState`, `navigateTo` leaves the counter, the history
stack, the location and the scroll untouched on every path. -/
theorem navigateTo_nopush_stable (net : Network) (url : String) (w : World) :
    (navigateTo net url false w).currentIndex = w.currentIndex ∧
    (navigateTo net url false w).histEntries = w.histEntries ∧
    (navigateTo net url false w).histPos = w.histPos ∧
    (navigateTo net url false w).locationHref = w.locationHref ∧
    (navigateTo net url false w).scrollX = w.scrollX ∧
    (navigateTo net url false w).scrollY = w.scrollY := by
  by_cases hg : (url == w.locationHref && !false) = true
  · rw [navigateTo_of_guard net url false w hg]
    exact ⟨rfl, rfl, rfl, rfl, rfl, rfl⟩
  · have hg2 : (url == w.locationHref && !false) = false := by
      revert hg; cases url == w.locationHref && !false <;> simp
    by_cases hf : fetchFails net url = true
    · rw [navigateTo_of_fail net url false w hg2 hf]
      exact ⟨rfl, rfl, rfl, rfl, rfl, rfl⟩
    · have hf2 : fetchFails net url = false := by
        revert hf; cases fetchFails net url <;> simp
      obtain ⟨doc, m, hn, hm⟩ := not_fetchFails_elim net url hf2
      have hg3 : (url == w.locationHref) = false := by
        revert hg2; cases url == w.locationHref <;> simp
      rw [navigateTo_nopush_success net url w doc m hg3 hn hm]
      exact ⟨rfl, rfl, rfl, rfl, rfl, rfl⟩

/-- A `popstate` with a null state is absorbed by the duplicate-URL
guard of `navigateTo`: the world does not change at all. -/
theorem handlePopState_none_eq (net : Network) (w : World) :
    handlePopState net none w = w := by
  show navigateTo net w.locationHref false w = w
  exact navigateTo_of_guard net w.locationHref false w (by simp)

/-- Traversal always overwrites the counter with the stored ordinal. -/
theorem handlePopState_some_currentIndex (net : Network) (s : HistoryEntry) (w : World) :
    (handlePopState net (some s) w).currentIndex = s.index := by
  by_cases hc : (s.content != "") = true
  · simp only [handlePopState, hc, if_true]
    cases s.scrollPosition <;> rfl
  · have hc2 : (s.content != "") = false := by
      revert hc; cases s.content != "" <;> simp
    simp only [handlePopState, hc2, Bool.false_eq_true, if_false]
    exact (navigateTo_nopush_stable net s.url _).1

/-- The cache-hit branch of `handlePopState`, characterised. -/
theorem handlePopState_restore (net : Network) (s : HistoryEntry) (w : World)
    (sp : Scroll) (hc : s.content ≠ "") (hsp : s.scrollPosition = some sp) :
    handlePopState net (some s) w =
      { w with
          currentIndex := s.index
          mainContentHtml := s.content
          docTitle := s.title
          opacity := "1"
          scrollX := sp.x
          scrollY := sp.y } := by
  have hc2 : (s.content != "") = true := bne_iff_ne.mpr hc
  simp only [handlePopState, hc2, if_true, hsp]

/-- `handlePopState` never reassigns `this.mainContent`. -/
theorem handlePopState_mainContentRef (net : Network) (st : Option HistoryEntry)
    (w : World) :
    (handlePopState net st w).mainContentRef = w.mainContentRef := by
  cases st with
  | none =>
    show (navigateTo net w.locationHref false w).mainContentRef = w.mainContentRef
    exact navigateTo_mainContentRef net w.locationHref false w
  | some s =>
    by_cases hc : (s.content != "") = true
    · simp only [handlePopState, hc, if_true]
      cases s.scrollPosition <;> rfl
    · have hc2 : (s.content != "") = false := by
        revert hc; cases s.content != "" <;> simp
      simp only [handlePopState, hc2, Bool.false_eq_true, if_false]
      exact navigateTo_mainContentRef net s.url false _

/-- The cache-hit branch dispatches no `spaContentUpdated` event. -/
theorem handlePopState_some_events (net : Network) (s : HistoryEntry) (w : World)
    (hc : s.content ≠ "") :
    (handlePopState net (some s) w).events = w.events := by
  have hc2 : (s.content != "") = true := bne_iff_ne.mpr hc
  simp only [handlePopState, hc2, if_true]
  cases s.scrollPosition <;> rfl

/-- A run of successful forward navigations only appends history slots,
and the `k`-th appended slot carries ordinal `currentIndex + 1 + k`. -/
theorem navSeq_append (net : Network) :
    ∀ (urls : List String) (w : World),
      (∀ u ∈ urls, fetchOk net u = true) →
      w.histPos + 1 = w.histEntries.length →
      ∃ tail : List Slot,
        (navSeq net urls w).histEntries = w.histEntries ++ tail ∧
        tail.length = urls.length ∧
        (∀ k, k < urls.length → ∃ e : HistoryEntry,
          (tail[k]?).bind Slot.state = some e ∧ e.index = w.currentIndex + 1 + k) := by
  intro urls
  induction urls with
  | nil =>
    intro w hok hp
    refine ⟨[], by simp [navSeq], rfl, ?_⟩
    intro k hk
    exact absurd hk (by simp)
  | cons u rest ih =>
    intro w hok hp
    obtain ⟨doc, m, hn, hm⟩ := fetchOk_elim net u (hok u (by simp))
    have h1 := navigateTo_push_success net u w doc m hn hm
    have htake : w.histEntries.take (w.histPos + 1) = w.histEntries :=
      List.take_of_length_le (by omega)
    have hw1e : (navigateTo net u true w).histEntries =
        w.histEntries ++
          [{ url := u
             state := some
               { url := u, title := doc.title, content := m
                 scrollPosition := some { x := 0, y := 0 }
                 isInitialState := false, index := w.currentIndex + 1 } }] := by
      rw [h1, htake]
    have hw1p : (navigateTo net u true w).histPos + 1 =
        (navigateTo net u true w).histEntries.length := by
      rw [h1]
      simp
    have hw1c : (navigateTo net u true w).currentIndex = w.currentIndex + 1 := by
      rw [h1]
    obtain ⟨tail, ht1, ht2, ht3⟩ :=
      ih (navigateTo net u true w) (fun v hv => hok v (by simp [hv])) hw1p
    refine ⟨{ url := u
              state := some
                { url := u, title := doc.title, content := m
                  scrollPosition := some { x := 0, y := 0 }
                  isInitialState := false, index := w.currentIndex + 1 } } :: tail,
            ?_, ?_, ?_⟩
    · have hseq : navSeq net (u :: rest) w = navSeq net rest (navigateTo net u true w) := rfl
      rw [hseq, ht1, hw1e]
      simp
    · simp [ht2]
    · intro k hk
      cases k with
      | zero =>
        refine ⟨{ url := u, title := doc.title, content := m
                  scrollPosition := some { x := 0, y := 0 }
                  isInitialState := false, index := w.currentIndex + 1 }, ?_, ?_⟩
        · simp [Slot.state]
        · simp
      | succ k =>
        obtain ⟨e, he1, he2⟩ := ht3 k (by simp at hk; omega)
        refine ⟨e, ?_, ?_⟩
        · simpa using he1
        · rw [he2, hw1c]
          omega

/-- Browser back traversal never reassigns `this.mainContent`. -/
theorem backTraverse_mainContentRef (net : Network) (w : World) :
    (backTraverse net w).mainContentRef = w.mainContentRef := by
  unfold backTraverse
  by_cases h0 : (w.histPos == 0) = true
  · rw [h0]; simp
  · have h02 : (w.histPos == 0) = false := by
      revert h0; cases w.histPos == 0 <;> simp
    rw [h02]
    simp only [Bool.false_eq_true, if_false]
    cases hs : w.histEntries[w.histPos - 1]? with
    | none => rfl
    | some slot => exact handlePopState_mainContentRef net slot.state _

/-- After a successful push from a well-indexed position, one backward
traversal lands on the slot that was active before the push and fires
the handler with that slot's record. -/
theorem backTraverse_after_push (net : Network) (urlB : String) (w : World)
    (doc : ParsedDoc) (m : String) (slot : Slot)
    (hn : net urlB = .success doc) (hm : doc.queryMain = some m)
    (hslot : w.histEntries[w.histPos]? = some slot) :
    backTraverse net (navigateTo net urlB true w) =
      handlePopState net slot.state
        { (navigateTo net urlB true w) with
            histPos := w.histPos, locationHref := slot.url } := by
  have hlt : w.histPos < w.histEntries.length := by
    rcases List.getElem?_eq_some.mp hslot with ⟨hl, _⟩
    exact hl
  have h1 := navigateTo_push_success net urlB w doc m hn hm
  have hkl : (w.histEntries.take (w.histPos + 1)).length = w.histPos + 1 := by
    rw [List.length_take]; omega
  unfold backTraverse
  rw [h1]
  simp only [hkl]
  have hz : ((w.histPos + 1 : Nat) == 0) = false := by simp
  rw [hz]
  simp only [Bool.false_eq_true, if_false, Nat.add_sub_cancel]
  have hget : (w.histEntries.take (w.histPos + 1) ++
      [({ url := urlB
          state := some
            { url := urlB, title := doc.title, content := m
              scrollPosition := some { x := 0, y := 0 }
              isInitialState := false, index := w.currentIndex + 1 } } : Slot)])[w.histPos]? =
      some slot := by
    rw [List.getElem?_append_left (by omega)]
    rw [List.getElem?_take_of_lt (by omega)]
    exact hslot
  rw [hget]

/-! ## Claims -/

/-- C1: a navigation whose fetch pipeline fails — rejected fetch
(`NetworkError`), non-2xx response (`HttpError`), or no main-content
match in the fetched document (`ContentNotFoundError`) — and which was
not short-circuited by the duplicate-URL guard (so a fetch really was
issued), ends with the pending indicator cleared (opacity `"1"`) and the
displayed content, document title, history stack and position, location,
`currentIndex` counter and `spaContentUpdated` log exactly as before.
The `catch` swallows the error, modelled by `navigateTo` being total. -/
theorem C1_failed_navigation_silent (net : Network) (url : String) (pushState : Bool)
    (w : World)
    (hg : (url == w.locationHref && !pushState) = false)
    (hf : fetchFails net url = true) :
    (navigateTo net url pushState w).opacity = "1" ∧
    (navigateTo net url pushState w).mainContentHtml = w.mainContentHtml ∧
    (navigateTo net url pushState w).docTitle = w.docTitle ∧
    (navigateTo net url pushState w).histEntries = w.histEntries ∧
    (navigateTo net url pushState w).histPos = w.histPos ∧
    (navigateTo net url pushState w).locationHref = w.locationHref ∧
    (navigateTo net url pushState w).currentIndex = w.currentIndex ∧
    (navigateTo net url pushState w).events = w.events := by
  rw [navigateTo_of_fail net url pushState w hg hf]
  exact ⟨rfl, rfl, rfl, rfl, rfl, rfl, rfl, rfl⟩

/-- C1 witness: fetching `https://h/x` over `netA` is a network error;
navigating there from `w0A` changes nothing but the indicator. -/
theorem C1_failed_navigation_silent_witness :
    (navigateTo netA "https://h/x" true w0A).opacity = "1" ∧
    (navigateTo netA "https://h/x" true w0A).mainContentHtml = w0A.mainContentHtml ∧
    (navigateTo netA "https://h/x" true w0A).docTitle = w0A.docTitle ∧
    (navigateTo netA "https://h/x" true w0A).histEntries = w0A.histEntries ∧
    (navigateTo netA "https://h/x" true w0A).histPos = w0A.histPos ∧
    (navigateTo netA "https://h/x" true w0A).locationHref = w0A.locationHref ∧
    (navigateTo netA "https://h/x" true w0A).currentIndex = w0A.currentIndex ∧
    (navigateTo netA "https://h/x" true w0A).events = w0A.events :=
  C1_failed_navigation_silent netA "https://h/x" true w0A (by decide) (by decide)

/-- C2 counterexample: start from the world `init` builds when the live
content region's markup is the empty string (`w0E`, live page A).  A
successful forward navigation to B followed by one backward traversal
does not restore A's content or title: the JS truthiness check
`if (event.state.content)` is false for the cached empty string, the
handler falls through to `navigateTo(event.state.url, false)`, the
duplicate-URL guard absorbs that call, and B's content and title stay
displayed.  So the round trip of the claim fails at this state. -/
theorem C2_round_trip_cex :
    (init envE).spa = some w0E ∧
    (backTraverse netA (navigateTo netA "https://h/b" true w0E)).mainContentHtml ≠
      w0E.mainContentHtml ∧
    (backTraverse netA (navigateTo netA "https://h/b" true w0E)).docTitle ≠
      w0E.docTitle := by
  refine ⟨by decide, by decide, by decide⟩

/-- C2 amended: for every state where the live page is A — the active
history slot holds a record whose cached content, title and scroll equal
the live values — and A's content markup is non-empty, a successful
forward navigation to B followed by one backward traversal restores A's
content, title and scroll exactly, and the traversal issues no fetch. -/
theorem C2_round_trip_restores (net : Network) (w : World) (urlB : String)
    (doc : ParsedDoc) (m : String) (slot : Slot) (e : HistoryEntry)
    (hslot : w.histEntries[w.histPos]? = some slot)
    (hstate : slot.state = some e)
    (hcontent : e.content = w.mainContentHtml)
    (hne : w.mainContentHtml ≠ "")
    (htitle : e.title = w.docTitle)
    (hscroll : e.scrollPosition = some { x := w.scrollX, y := w.scrollY })
    (hn : net urlB = .success doc) (hm : doc.queryMain = some m) :
    (backTraverse net (navigateTo net urlB true w)).mainContentHtml = w.mainContentHtml ∧
    (backTraverse net (navigateTo net urlB true w)).docTitle = w.docTitle ∧
    (backTraverse net (navigateTo net urlB true w)).scrollX = w.scrollX ∧
    (backTraverse net (navigateTo net urlB true w)).scrollY = w.scrollY ∧
    (backTraverse net (navigateTo net urlB true w)).fetchCount =
      (navigateTo net urlB true w).fetchCount := by
  rw [backTraverse_after_push net urlB w doc m slot hn hm hslot, hstate]
  rw [handlePopState_restore net e _ { x := w.scrollX, y := w.scrollY }
      (by rw [hcontent]; exact hne) hscroll]
  exact ⟨hcontent, htitle, rfl, rfl, rfl⟩

/-- C2 witness: the round trip A-to-B-and-back from `w0A` (non-empty
content `CA`) restores content, title and scroll with no extra fetch. -/
theorem C2_round_trip_restores_witness :
    (backTraverse netA (navigateTo netA "https://h/b" true w0A)).mainContentHtml =
      w0A.mainContentHtml ∧
    (backTraverse netA (navigateTo netA "https://h/b" true w0A)).docTitle = w0A.docTitle ∧
    (backTraverse netA (navigateTo netA "https://h/b" true w0A)).scrollX = w0A.scrollX ∧
    (backTraverse netA (navigateTo netA "https://h/b" true w0A)).scrollY = w0A.scrollY ∧
    (backTraverse netA (navigateTo netA "https://h/b" true w0A)).fetchCount =
      (navigateTo netA "https://h/b" true w0A).fetchCount :=
  C2_round_trip_restores netA w0A "https://h/b"
    { title := "TB", queryMain := some "CB" } "CB"
    { url := "https://h/a", state := some entA } entA
    (by decide) (by decide) (by decide) (by decide) (by decide) (by decide)
    (by decide) (by decide)

/-- C3 counterexample: a cache-hit replay during history traversal is a
successful content swap (the displayed markup changes to the cached
markup), yet zero — not exactly one — `spaContentUpdated` notifications
are dispatched by it. -/
theorem C3_notification_cex :
    (handlePopState netA (some entA) wBA).mainContentHtml = entA.content ∧
    entA.content ≠ wBA.mainContentHtml ∧
    (handlePopState netA (some entA) wBA).events = wBA.events := by
  refine ⟨by decide, by decide, by decide⟩

/-- C3 amended: exactly one `spaContentUpdated` notification carrying
`{ url, pushState }` is dispatched after every successful fetch-based
content swap; cache-hit replays during history traversal dispatch no
notification. -/
theorem C3_notification_on_fetch_only (net : Network) :
    (∀ url pushState w doc m,
        (url == w.locationHref && !pushState) = false →
        net url = .success doc → doc.queryMain = some m →
        (navigateTo net url pushState w).events =
          w.events ++ [{ url := url, pushState := pushState }]) ∧
    (∀ s w, s.content ≠ "" →
        (handlePopState net (some s) w).events = w.events) := by
  constructor
  · intro url pushState w doc m hg hn hm
    cases pushState with
    | true => rw [navigateTo_push_success net url w doc m hn hm]
    | false =>
      have hg3 : (url == w.locationHref) = false := by
        revert hg; cases url == w.locationHref <;> simp
      rw [navigateTo_nopush_success net url w doc m hg3 hn hm]
  · intro s w hc
    exact handlePopState_some_events net s w hc

/-- C3 witness: the fetch-based swap to B appends exactly one event, and
the cache-hit replay of A's record appends none. -/
theorem C3_notification_on_fetch_only_witness :
    (navigateTo netA "https://h/b" true w0A).events =
      w0A.events ++ [{ url := "https://h/b", pushState := true }] ∧
    (handlePopState netA (some entA) wBA).events = wBA.events :=
  ⟨(C3_notification_on_fetch_only netA).1 "https://h/b" true w0A
      { title := "TB", queryMain := some "CB" } "CB" (by decide) (by decide) (by decide),
   (C3_notification_on_fetch_only netA).2 entA wBA (by decide)⟩

/-- C4: on a `popstate` whose surfaced position has no associated record
the handler does delegate to `navigateTo(window.location.href, false)`,
but that call is short-circuited by the duplicate-URL guard (the url it
is given is exactly the current location and `pushState` is false), so
no fetch is issued, nothing is swapped in, and the world is returned
unchanged — the live re-fetch the spec describes never happens. -/
theorem C4_absent_state_refetch_dead (net : Network) (w : World) :
    handlePopState net none w = navigateTo net w.locationHref false w ∧
    handlePopState net none w = w :=
  ⟨rfl, handlePopState_none_eq net w⟩

/-- C5: `navigate(url, false)` when the current location already equals
`url` exactly is a no-op: the world — content, title, indicator, scroll,
history, counter, event log, fetch count — is returned unchanged. -/
theorem C5_duplicate_guard_noop (net : Network) (url : String) (w : World)
    (h : url = w.locationHref) :
    navigateTo net url false w = w := by
  apply navigateTo_of_guard
  rw [h]
  simp

/-- C5 witness: re-navigating to the current location of `w0A` without
`pushState` changes nothing. -/
theorem C5_duplicate_guard_noop_witness :
    navigateTo netA "https://h/a" false w0A = w0A :=
  C5_duplicate_guard_noop netA "https://h/a" w0A (by decide)

/-- C6: (1) a successful push appends an entry with ordinal
`currentIndex + 1` and sets the counter to that value; (2) traversal
with a surfaced record never increments the counter — it overwrites it
with the stored ordinal on every branch; (3) from an initial state
(counter 0, active slot on top), N successful forward navigations append
N entries carrying the strictly increasing ordinals 1..N. -/
theorem C6_ordinal_monotonic (net : Network) :
    (∀ w url doc m, net url = .success doc → doc.queryMain = some m →
        (navigateTo net url true w).currentIndex = w.currentIndex + 1 ∧
        ((navigateTo net url true w).histEntries.getLast?).bind Slot.state =
          some { url := url, title := doc.title, content := m
                 scrollPosition := some { x := 0, y := 0 }
                 isInitialState := false, index := w.currentIndex + 1 }) ∧
    (∀ w s, (handlePopState net (some s) w).currentIndex = s.index) ∧
    (∀ urls w0, (∀ u ∈ urls, fetchOk net u = true) →
        w0.histPos + 1 = w0.histEntries.length → w0.currentIndex = 0 →
        ∃ tail : List Slot,
          (navSeq net urls w0).histEntries = w0.histEntries ++ tail ∧
          tail.length = urls.length ∧
          (∀ k, k < urls.length → ∃ e : HistoryEntry,
            (tail[k]?).bind Slot.state = some e ∧ e.index = k + 1)) := by
  refine ⟨?_, ?_, ?_⟩
  · intro w url doc m hn hm
    rw [navigateTo_push_success net url w doc m hn hm]
    refine ⟨rfl, ?_⟩
    simp [List.getLast?_concat, Slot.state]
  · intro w s
    exact handlePopState_some_currentIndex net s w
  · intro urls w0 hok hp hc0
    obtain ⟨tail, h1, h2, h3⟩ := navSeq_append net urls w0 hok hp
    refine ⟨tail, h1, h2, ?_⟩
    intro k hk
    obtain ⟨e, he1, he2⟩ := h3 k hk
    exact ⟨e, he1, by omega⟩

/-- C6 witness: two successful forward navigations from `w0A` append two
entries with ordinals 1 and 2. -/
theorem C6_ordinal_monotonic_witness :
    ∃ tail : List Slot,
      (navSeq netA ["https://h/b", "https://h/a"] w0A).histEntries =
        w0A.histEntries ++ tail ∧
      tail.length = (["https://h/b", "https://h/a"] : List String).length ∧
      (∀ k, k < (["https://h/b", "https://h/a"] : List String).length →
        ∃ e : HistoryEntry, (tail[k]?).bind Slot.state = some e ∧ e.index = k + 1) :=
  (C6_ordinal_monotonic netA).2.2 ["https://h/b", "https://h/a"] w0A
    (by decide) (by decide) (by decide)

/-- C7: a clicked anchor is classified internal exactly when its `host`
equals the current document's host; an internal click suppresses default
navigation and runs `navigateTo(link.href, true)` leaving the anchor
untouched; an external click keeps default navigation and mutates the
anchor to `target="_blank"`, `rel="noopener noreferrer"`; a click with
no enclosing anchor does nothing. -/
theorem C7_link_classification (net : Network) (w : World) (a : Anchor) :
    (isInternalLink w a = true ↔ a.host = w.locationHost) ∧
    handleClick net w (some a) =
      (if a.host = w.locationHost then
        { world := navigateTo net a.href true w
          link := some a
          defaultPrevented := true }
      else
        { world := w
          link := some { a with target := "_blank", rel := "noopener noreferrer" }
          defaultPrevented := false }) ∧
    handleClick net w none = { world := w, link := none, defaultPrevented := false } := by
  refine ⟨?_, ?_, rfl⟩
  · simp [isInternalLink]
  · by_cases h : a.host = w.locationHost
    · rw [if_pos h]
      simp [handleClick, isInternalLink, h]
    · rw [if_neg h]
      simp [handleClick, isInternalLink, h]

/-- C8: with no element matching the main-content selector, `init`
produces an inert instance: no start-up record is written to the history
(it is returned unchanged) and — since no listener was registered —
clicks and `popstate` events leave everything untouched. -/
theorem C8_inert_without_main (net : Network) (env : Env) (link : Option Anchor)
    (st : Option HistoryEntry)
    (h : env.mainQuery = none) :
    (init env).spa = none ∧
    (init env).histEntries = env.histEntries ∧
    sysClick net (init env).spa link = ((init env).spa, link, false) ∧
    sysPopState net (init env).spa st = (init env).spa := by
  have h1 : init env = { spa := none, histEntries := env.histEntries } := by
    unfold init
    rw [h]
  rw [h1]
  exact ⟨rfl, rfl, rfl, rfl⟩

/-- C8 witness: `envA` with the main element removed is inert. -/
theorem C8_inert_without_main_witness :
    (init { envA with mainQuery := none }).spa = none ∧
    (init { envA with mainQuery := none }).histEntries =
      ({ envA with mainQuery := none } : Env).histEntries ∧
    sysClick netA (init { envA with mainQuery := none }).spa none =
      ((init { envA with mainQuery := none }).spa, none, false) ∧
    sysPopState netA (init { envA with mainQuery := none }).spa none =
      (init { envA with mainQuery := none }).spa :=
  C8_inert_without_main netA { envA with mainQuery := none } none none (by decide)

/-- C9: `this.mainContent` is assigned once, at start-up, to the element
the query found, and no operation — forward navigation on any path,
history traversal (cache hit or fallback), back traversal — ever
replaces that reference; only the element's inner markup mutates. -/
theorem C9_mainContent_ref_stable (net : Network) (env : Env) (mc : MainElem)
    (url : String) (pushState : Bool) (w : World) (st : Option HistoryEntry)
    (henv : env.mainQuery = some mc) :
    (∃ w0, (init env).spa = some w0 ∧ w0.mainContentRef = mc.ref) ∧
    (navigateTo net url pushState w).mainContentRef = w.mainContentRef ∧
    (handlePopState net st w).mainContentRef = w.mainContentRef ∧
    (backTraverse net w).mainContentRef = w.mainContentRef := by
  refine ⟨?_, navigateTo_mainContentRef net url pushState w,
    handlePopState_mainContentRef net st w, backTraverse_mainContentRef net w⟩
  refine ⟨{ locationHref := env.locationHref
            locationHost := env.locationHost
            docTitle := env.docTitle
            mainContentRef := mc.ref
            mainContentHtml := mc.innerHTML
            opacity := env.opacity
            scrollX := env.scrollX
            scrollY := env.scrollY
            histEntries := env.histEntries.set env.histPos
              { url := env.locationHref
                state := some
                  { url := env.locationHref, title := env.docTitle
                    content := mc.innerHTML
                    scrollPosition := some { x := env.scrollX, y := env.scrollY }
                    isInitialState := true, index := 0 } }
            histPos := env.histPos
            currentIndex := 0
            events := []
            fetchCount := 0 }, ?_, rfl⟩
  simp only [init, henv]

/-- C9 witness: instantiated at `envA` and `wBA`. -/
theorem C9_mainContent_ref_stable_witness :
    (∃ w0, (init envA).spa = some w0 ∧
      w0.mainContentRef = ({ ref := 7, innerHTML := "CA" } : MainElem).ref) ∧
    (navigateTo netA "https://h/b" true wBA).mainContentRef = wBA.mainContentRef ∧
    (handlePopState netA none wBA).mainContentRef = wBA.mainContentRef ∧
    (backTraverse netA wBA).mainContentRef = wBA.mainContentRef :=
  C9_mainContent_ref_stable netA envA { ref := 7, innerHTML := "CA" }
    "https://h/b" true wBA none (by decide)

/-- C10: `navigate(url, true)` when `url` is already the current
location is not dropped by the duplicate-URL guard (the guard needs
`pushState` false): on success it issues the fetch, swaps content and
title, increments the counter, and pushes a fresh entry for the same
location with ordinal `currentIndex + 1`. -/
theorem C10_push_same_url_refetches (net : Network) (url : String) (w : World)
    (doc : ParsedDoc) (m : String)
    (h : url = w.locationHref)
    (hn : net url = .success doc) (hm : doc.queryMain = some m) :
    (navigateTo net url true w).fetchCount = w.fetchCount + 1 ∧
    (navigateTo net url true w).mainContentHtml = m ∧
    (navigateTo net url true w).docTitle = doc.title ∧
    (navigateTo net url true w).currentIndex = w.currentIndex + 1 ∧
    ((navigateTo net url true w).histEntries.getLast?).bind Slot.state =
      some { url := w.locationHref, title := doc.title, content := m
             scrollPosition := some { x := 0, y := 0 }
             isInitialState := false, index := w.currentIndex + 1 } ∧
    (navigateTo net url true w).histEntries.length =
      (w.histEntries.take (w.histPos + 1)).length + 1 := by
  subst h
  rw [navigateTo_push_success net w.locationHref w doc m hn hm]
  refine ⟨rfl, rfl, rfl, rfl, ?_, by simp⟩
  simp [List.getLast?_concat, Slot.state]

/-- C10 witness: re-navigating to the current location of `w0A` with
`pushState` fetches again and pushes ordinal 1 for the same URL. -/
theorem C10_push_same_url_refetches_witness :
    (navigateTo netA "https://h/a" true w0A).fetchCount = w0A.fetchCount + 1 ∧
    (navigateTo netA "https://h/a" true w0A).mainContentHtml = "CA" ∧
    (navigateTo netA "https://h/a" true w0A).docTitle = "TA" ∧
    (navigateTo netA "https://h/a" true w0A).currentIndex = w0A.currentIndex + 1 ∧
    ((navigateTo netA "https://h/a" true w0A).histEntries.getLast?).bind Slot.state =
      some { url := w0A.locationHref, title := "TA", content := "CA"
             scrollPosition := some { x := 0, y := 0 }
             isInitialState := false, index := w0A.currentIndex + 1 } ∧
    (navigateTo netA "https://h/a" true w0A).histEntries.length =
      (w0A.histEntries.take (w0A.histPos + 1)).length + 1 :=
  C10_push_same_url_refetches netA "https://h/a" w0A
    { title := "TA", queryMain := some "CA" } "CA" (by decide) (by decide) (by decide)

end LightSPA
